import Mathlib

/-!
Verification development for the tabular merge engine of the repository
(`src/matrix/api.py`, `src/ontask/forms.py`).

The embedding is shallow: each Python function used by the claims is
translated into an executable Lean definition over explicit state.
Tables are modelled columnar, exactly as the wire format describes them:
an ordered list of named columns, each an ordered list of cells.  Cell
values are modelled as `Option Int` (`none` is a null); the merge logic
under scrutiny only ever compares cells for equality, so this value
domain is faithful for every claim below.

Collaborators of `matrix/api.py` that live in modules not present under
`src/` (`dataops.ops`, `dataops.pandas_db`, the serializers) are modelled
from the specification; each such definition carries a doc comment
starting with `Modelled from the spec:`.
-/

namespace Ontask

/-- A column name (Python string). -/
abbrev ColName := String

/-- A table: ordered list of named columns, each an ordered list of cells.
This mirrors both the pandas `DataFrame` surface used by `matrix/api.py`
(ordered `columns`, column extraction by name) and the wire format
(mapping from column name to list of scalars). -/
structure Table where
  cols : List (ColName × List (Option Int))
  deriving DecidableEq, Repr

/-- `df.columns` of pandas: the ordered list of column names. -/
def Table.columns (t : Table) : List ColName :=
  t.cols.map Prod.fst

/-- `df[c]`: the cells of the column named `c`, defaulting to `[]` when the
column is absent (callers below guard on membership first, exactly where the
Python code would otherwise raise `KeyError`). -/
def Table.getColD (t : Table) (c : ColName) : List (Option Int) :=
  ((t.cols.find? (fun p => p.1 == c)).map Prod.snd).getD []

/-- Modelled from the spec: `dataops.ops.is_unique_column` (module not under
`src/`).  Section 4.1: every value of the column is unique; null values count
as duplicates when more than one is present.  Both readings coincide with
no-duplicates over `Option Int`. -/
def is_unique_column (l : List (Option Int)) : Bool :=
  l.dedup.length == l.length

/-- The suffix-search loop of `MatrixMerge.put` (`api.py` lines 206-211):
starting at `i = 1`, the first name `colname ++ "_i"` that is not among the
DESTINATION columns is chosen.  The Python `while True` loop terminates
because among the `dstCols.length + 1` candidate names at most
`dstCols.length` can be members of `dstCols`; the search below scans exactly
those candidates, so the fallback branch is unreachable. -/
def findSuffix (dstCols : List ColName) (colname : ColName) : ColName :=
  match (List.range (dstCols.length + 1)).find?
      (fun i => !(dstCols.contains (colname ++ "_" ++ toString (i + 1)))) with
  | some i => colname ++ "_" ++ toString (i + 1)
  | none => colname

/-- The body of the per-column rename decision of `MatrixMerge.put`
(`api.py` lines 194-212): the key column is kept as is; a non-colliding
column is kept as is; a colliding column receives the smallest suffix that
avoids the destination columns (and, per the source, ONLY the destination
columns). -/
def renameColumn (dstCols : List ColName) (right_on colname : ColName) : ColName :=
  if colname == right_on then colname
  else if dstCols.contains colname then findSuffix dstCols colname
  else colname

/-- `autorename_column_names` as computed by `MatrixMerge.put` under the
`rename` policy (`api.py` lines 193-212).  The Python loop appends
`renameColumn` of each source column in order; the accumulating result list
is never consulted by the loop, which is why a plain `map` is the faithful
translation. -/
def autorename (dstCols srcCols : List ColName) (right_on : ColName) : List ColName :=
  srcCols.map (renameColumn dstCols right_on)

/-- `override_columns_names` as computed by `MatrixMerge.put` under the
`override` policy (`api.py` lines 186-191):
`list((set(dst_df.columns) & set(src_df.columns)) - {left_on})`.
Python sets are order-free; the model lists the members in destination
order, deduplicated, so that its `toFinset` is exactly the Python set. -/
def overrideColumns (dstCols srcCols : List ColName) (left_on : ColName) : List ColName :=
  ((dstCols.filter (fun c => srcCols.contains c)).filter (fun c => c != left_on)).dedup

/-- Modelled from the spec: the rename policy as the specification words it
(section 4.2): a colliding source column receives the smallest positive
suffix avoiding BOTH the destination columns and every name already assigned
earlier in the same left-to-right pass.  Used only to compare against the
source's `autorename`. -/
def specSuffix (avoid : List ColName) (colname : ColName) : ColName :=
  match (List.range (avoid.length + 1)).find?
      (fun i => !(avoid.contains (colname ++ "_" ++ toString (i + 1)))) with
  | some i => colname ++ "_" ++ toString (i + 1)
  | none => colname

/-- Modelled from the spec: the accumulating pass of the specification's
rename policy (section 4.2); `assigned` is the list of names already chosen
earlier in the pass. -/
def autorenameSpecGo (dstCols : List ColName) (right_on : ColName) :
    List ColName → List ColName → List ColName
  | _, [] => []
  | assigned, c :: rest =>
    let n :=
      if c == right_on then c
      else if dstCols.contains c then specSuffix (dstCols ++ assigned) c
      else c
    n :: autorenameSpecGo dstCols right_on (assigned ++ [n]) rest

/-- Modelled from the spec: the full rename plan of the specification's
ColumnReconciler (section 4.2). -/
def autorenameSpec (dstCols srcCols : List ColName) (right_on : ColName) : List ColName :=
  autorenameSpecGo dstCols right_on [] srcCols

/-- The `merge_info` dictionary built by `MatrixMerge.put` (`api.py`
lines 184-223).  `autorename_column_names` stays `None` under `override`
(Python initialises it to `None` and only the `rename` branch assigns a
list); `override_columns_names` stays `[]` under `rename`. -/
structure MergeInfo where
  how_merge : String
  dst_selected_key : ColName
  src_selected_key : ColName
  initial_column_names : List ColName
  autorename_column_names : Option (List ColName)
  rename_column_names : List ColName
  columns_to_upload : List Bool
  override_columns_names : List ColName
  deriving DecidableEq, Repr

/-- Construction of `merge_info` from the validated request, exactly as
`MatrixMerge.put` assembles it (`api.py` lines 184-223). -/
def mkMergeInfo (dstCols srcCols : List ColName)
    (how left_on right_on dup_column : String) : MergeInfo :=
  { how_merge := how
    dst_selected_key := left_on
    src_selected_key := right_on
    initial_column_names := srcCols
    autorename_column_names :=
      if dup_column == "override" then none
      else some (autorename dstCols srcCols right_on)
    rename_column_names := srcCols
    columns_to_upload := List.replicate srcCols.length true
    override_columns_names :=
      if dup_column == "override" then overrideColumns dstCols srcCols left_on
      else [] }

/-- Modelled from the spec: the row-level equi-join of the JoinExecutor
(section 4.3, `dataops.ops` is not under `src/`).  Keys are unique on both
sides after validation, so each output row is identified by its key value;
output columns are the destination columns (key filled with the row's key
value) followed by the source columns minus the duplicate key; unmatched
cells are null-filled; row order follows the spec's words: destination
order is preserved for matched and left rows, and the unmatched
source-only rows of `right`/`outer` are appended after, in source order. -/
def joinTables (dst src : Table) (left_on right_on how : String) : Table :=
  let dkeys := dst.getColD left_on
  let skeys := src.getColD right_on
  let outKeys :=
    if how == "inner" then dkeys.filter (fun v => skeys.contains v)
    else if how == "left" then dkeys
    else if how == "right" then
      dkeys.filter (fun v => skeys.contains v)
        ++ skeys.filter (fun v => !(dkeys.contains v))
    else dkeys ++ skeys.filter (fun v => !(dkeys.contains v))
  let dstPart := dst.cols.map (fun p =>
    (p.1, outKeys.map (fun v =>
      if p.1 == left_on then v
      else
        match dkeys.findIdx? (fun x => x == v) with
        | some i => p.2.getD i none
        | none => none)))
  let srcPart := (src.cols.filter (fun p => p.1 != right_on)).map (fun p =>
    (p.1, outKeys.map (fun v =>
      match skeys.findIdx? (fun x => x == v) with
      | some i => p.2.getD i none
      | none => none)))
  ⟨dstPart ++ srcPart⟩

/-- Modelled from the spec: `dataops.ops.perform_dataframe_upload_merge`
(module not under `src/`), i.e. the Reconciler application plus the
JoinExecutor (sections 4.2-4.3): under `override` the listed destination
columns are dropped before the join; under `rename` the source columns are
renamed positionally to `autorename_column_names`; then the equi-join runs
on the selected keys.  The caller persists this result. -/
def mergeResult (dst src : Table) (info : MergeInfo) : Table :=
  let dst2 : Table :=
    ⟨dst.cols.filter (fun p => !(info.override_columns_names.contains p.1))⟩
  let src2 : Table :=
    match info.autorename_column_names with
    | none => src
    | some names => ⟨(src.cols.zip names).map (fun q => (q.2, q.1.2))⟩
  joinTables dst2 src2 info.dst_selected_key info.src_selected_key info.how_merge

/-- Every distinct outcome a request to the two API views can produce.
`incorrectObject` and `workflowLocked` are the two `APIException`s of
`get_object`; `serializerErrors` is the 400 response built from
`serializer.errors`; `http404` is the `Http404` of `MatrixOps.override`;
`postRequiresNoMatrix` is the `APIException` of `MatrixOps.post`;
`pyKeyError c` is the UNCAUGHT Python `KeyError` raised by `dst_df[c]` when
`c` is not a destination column (`api.py` line 167 has no membership guard);
`noneTypeFault` is the uncaught Python error from subscripting the `None`
returned by `load_from_db` when the workflow has no matrix; the remaining
constructors are the `APIException`s of `MatrixMerge.put` in source order. -/
inductive ApiError where
  | incorrectObject
  | workflowLocked
  | serializerErrors
  | http404
  | postRequiresNoMatrix
  | unableToLoadMatrix
  | badHow
  | noneTypeFault
  | pyKeyError (c : ColName)
  | notUniqueDst (c : ColName)
  | rightNotFound (c : ColName)
  | notUniqueSrc (c : ColName)
  | badDupColumn
  | mergeFailed
  | mergeResultTruthy
  deriving DecidableEq, Repr

/-- Whether an error is one the handler raises deliberately — an
`APIException`, an `Http404`, or a serializer 400, all rendered by the
framework as a structured error response — as opposed to the two uncaught
Python faults of `MatrixMerge.put` (subscripting a missing column or a
`None` data frame), which surface as unstructured internal errors. -/
def ApiError.structured : ApiError → Bool
  | .pyKeyError _ => false
  | .noneTypeFault => false
  | _ => true

/-- The state the two views read: whether the workflow row exists, whether
the requesting user owns it, whether the user is a superuser, the lock bit
consulted by `is_locked`, and the stored data frame (`None` when the
workflow has no matrix). -/
structure WfState where
  wfFound : Bool
  owned : Bool
  superuser : Bool
  locked : Bool
  stored : Option Table
  deriving DecidableEq, Repr

/-- `get_object` shared by `MatrixOps` and `MatrixMerge` (`api.py`
lines 38-51 and 113-126): fetch by pk (superusers skip the ownership
filter), raise `Incorrect object` when the fetch fails, then raise
`Workflow is locked by another user` when `is_locked` holds. -/
def get_object (s : WfState) : Except ApiError Unit :=
  if !(s.wfFound && (s.superuser || s.owned)) then .error .incorrectObject
  else if s.locked then .error .workflowLocked
  else .ok ()

deriving instance DecidableEq for Except

/-- A request body for `MatrixOps.post` / `MatrixOps.put`:
`serializerValid` is the verdict of `DataFrameSerializer.is_valid` and
`convertible` is whether `pd.DataFrame(...)` plus
`ops.detect_datetime_columns` succeed — both collaborators live outside
`src/`, so only their verdicts are modelled; `table` is the uploaded data
frame.  Date/time detection is modelled as the identity: in this value
domain there are no date-like strings for it to convert. -/
structure UploadReq where
  serializerValid : Bool
  convertible : Bool
  table : Table
  deriving DecidableEq, Repr

/-- Result of a `MatrixOps` request: the response (or raised error) paired
with the stored data frame after the request. -/
structure OpsOutcome where
  result : Except ApiError Unit
  stored : Option Table
  deriving DecidableEq, Repr

/-- `MatrixOps.override` (`api.py` lines 53-73): permission check via
`get_object`, serializer validation (400 on failure), data-frame
translation (`Http404` on failure), then `store_dataframe_in_db` and a 201
response. -/
def matrixOpsOverride (s : WfState) (r : UploadReq) : OpsOutcome :=
  match get_object s with
  | .error e => ⟨.error e, s.stored⟩
  | .ok _ =>
    if r.serializerValid then
      if r.convertible then ⟨.ok (), some r.table⟩
      else ⟨.error .http404, s.stored⟩
    else ⟨.error .serializerErrors, s.stored⟩

/-- `MatrixOps.get` (`api.py` lines 76-80): permission check, then the
stored data frame is serialized back. -/
def matrixOpsGet (s : WfState) : Except ApiError (Option Table) :=
  match get_object s with
  | .error e => .error e
  | .ok _ => .ok s.stored

/-- `MatrixOps.post` (`api.py` lines 83-88): first `load_from_db`; when a
matrix is already stored the request is rejected before anything else, and
otherwise the request is delegated to `override`. -/
def matrixOpsPost (s : WfState) (r : UploadReq) : OpsOutcome :=
  if s.stored.isSome then ⟨.error .postRequiresNoMatrix, s.stored⟩
  else matrixOpsOverride s r

/-- `MatrixOps.put` (`api.py` lines 91-92): delegates to `override`. -/
def matrixOpsPut (s : WfState) (r : UploadReq) : OpsOutcome :=
  matrixOpsOverride s r

/-- `MatrixOps.delete` (`api.py` lines 95-98): permission check, then
`detach_dataframe` clears the stored data frame and a 204 is returned. -/
def matrixOpsDelete (s : WfState) : OpsOutcome :=
  match get_object s with
  | .error e => ⟨.error e, s.stored⟩
  | .ok _ => ⟨.ok (), none⟩

/-- `MatrixMerge.get` (`api.py` lines 129-139): permission check, then the
stored data frame is returned as `src_df` next to empty merge parameters
(only the table matters to the claims). -/
def matrixMergeGet (s : WfState) : Except ApiError (Option Table) :=
  match get_object s with
  | .error e => .error e
  | .ok _ => .ok s.stored

/-- A request body for `MatrixMerge.put`.  `serializerValid` is the verdict
of `DataFrameMergeSerializer.is_valid` and `srcConvertible` whether
`pd.DataFrame(validated_data['src_df'])` succeeds (both collaborators are
outside `src/`); `mergeRaises` is whether
`ops.perform_dataframe_upload_merge` raises, and `mergeResultTruthy`
whether it returns a truthy error value — when both are false it persists
`mergeResult` and returns a falsy value. -/
structure MergeReq where
  serializerValid : Bool
  srcConvertible : Bool
  src_df : Table
  how : String
  left_on : ColName
  right_on : ColName
  dup_column : String
  mergeRaises : Bool
  mergeResultTruthy : Bool
  deriving DecidableEq, Repr

/-- `serializer.data` of a validated merge request: the validated input
echoed back (the source data frame together with the merge parameters). -/
structure MergePayload where
  src_df : Table
  how : String
  left_on : ColName
  right_on : ColName
  dup_column : String
  deriving DecidableEq, Repr

/-- The echo payload `serializer.data` that `MatrixMerge.put` returns with
status 201 on success (`api.py` lines 239-240). -/
def MergeReq.payload (r : MergeReq) : MergePayload :=
  ⟨r.src_df, r.how, r.left_on, r.right_on, r.dup_column⟩

/-- Result of a `MatrixMerge.put` request: the response (or raised error),
whether `ops.perform_dataframe_upload_merge` was invoked at all, and the
stored data frame after the request. -/
structure PutOutcome where
  result : Except ApiError MergePayload
  mergeInvoked : Bool
  stored : Option Table
  deriving DecidableEq, Repr

/-- `MatrixMerge.put` (`api.py` lines 142-240), step for step in source
order: `get_object`; `load_from_db`; serializer validation; `src_df`
translation; the `how` check; `dst_df[left_on]` (an UNCAUGHT Python fault
when the workflow has no matrix or `left_on` is not a destination column)
fed to `is_unique_column`; the `right_on` membership and uniqueness checks;
the `dup_column` check; assembly of `merge_info`; then
`perform_dataframe_upload_merge`, whose exceptions become
`Unable to perform merge operation` and whose truthy return becomes an
`APIException`; on success the echoed `serializer.data` is returned with
status 201 and the merged result is the stored data frame. -/
def matrixMergePut (s : WfState) (r : MergeReq) : PutOutcome :=
  if !(s.wfFound && (s.superuser || s.owned)) then ⟨.error .incorrectObject, false, s.stored⟩
  else if s.locked then ⟨.error .workflowLocked, false, s.stored⟩
  else if !r.serializerValid then ⟨.error .serializerErrors, false, s.stored⟩
  else if !r.srcConvertible then ⟨.error .unableToLoadMatrix, false, s.stored⟩
  else if !(["left", "right", "outer", "inner"].contains r.how) then
    ⟨.error .badHow, false, s.stored⟩
  else
    match s.stored with
    | none => ⟨.error .noneTypeFault, false, s.stored⟩
    | some dst =>
      if !(dst.columns.contains r.left_on) then
        ⟨.error (.pyKeyError r.left_on), false, s.stored⟩
      else if !(is_unique_column (dst.getColD r.left_on)) then
        ⟨.error (.notUniqueDst r.left_on), false, s.stored⟩
      else if !(r.src_df.columns.contains r.right_on) then
        ⟨.error (.rightNotFound r.right_on), false, s.stored⟩
      else if !(is_unique_column (r.src_df.getColD r.right_on)) then
        ⟨.error (.notUniqueSrc r.right_on), false, s.stored⟩
      else if !(["override", "rename"].contains r.dup_column) then
        ⟨.error .badDupColumn, false, s.stored⟩
      else if r.mergeRaises then ⟨.error .mergeFailed, true, s.stored⟩
      else if r.mergeResultTruthy then ⟨.error .mergeResultTruthy, true, s.stored⟩
      else
        ⟨.ok r.payload, true,
          some (mergeResult dst r.src_df
            (mkMergeInfo dst.columns r.src_df.columns
              r.how r.left_on r.right_on r.dup_column))⟩

/-- The conjunction of the validation checks of `MatrixMerge.put`
(serializer verdict, `src_df` translation, `how`, presence of a stored
matrix, key presence and uniqueness on both sides, `dup_column`), in the
order the source performs them. -/
def mergeValidationOk (s : WfState) (r : MergeReq) : Bool :=
  r.serializerValid && r.srcConvertible &&
    (["left", "right", "outer", "inner"].contains r.how) &&
    (match s.stored with
     | none => false
     | some dst =>
       dst.columns.contains r.left_on &&
         is_unique_column (dst.getColD r.left_on) &&
         r.src_df.columns.contains r.right_on &&
         is_unique_column (r.src_df.getColD r.right_on) &&
         (["override", "rename"].contains r.dup_column))

/-- A Python 2 value that `max_upload_size` can hold: an `int` when the
caller passed one explicitly, or a `str` — `RestrictedFileField.__init__`
(`forms.py` line 17) stores `str(ontask_prefs.MAX_UPLOAD_SIZE)` whenever no
explicit size was given. -/
inductive PyVal where
  | pyInt (n : Nat)
  | pyStr (s : String)
  deriving DecidableEq, Repr

/-- The Python 2 comparison `n > v` for an `int` left operand: numeric when
`v` is an `int`; always `False` when `v` is a `str`, because CPython 2
orders every number below every non-number (so `int > str` never holds).
The repository is Python 2 code (`unicode_literals` imports,
`ugettext_lazy`, old-style `super`). -/
def py2GtInt (n : Nat) : PyVal → Bool
  | .pyInt m => decide (m < n)
  | .pyStr _ => false

/-- The value returned by `super().clean`: `content_type` is `none` when
the attribute is absent (no newly uploaded file, e.g. the initial value of
an unchanged field), in which case line 23 raises `AttributeError`;
otherwise the upload's declared content type.  `size` is the file size in
bytes. -/
structure UploadedValue where
  content_type : Option String
  size : Nat
  deriving DecidableEq, Repr

/-- The configuration of a `RestrictedFileField` after `__init__`
(`forms.py` lines 13-18): the allowed content types and the
`max_upload_size` value (an `int` when passed explicitly, the `str` of the
preference otherwise). -/
structure RestrictedFileField where
  content_types : List String
  max_upload_size : PyVal
  deriving DecidableEq, Repr

/-- What a call to `RestrictedFileField.clean` does: return the value, or
raise one of the two `ValidationError`s of `forms.py` lines 25-32. -/
inductive CleanResult where
  | ok (v : UploadedValue)
  | fileSizeError
  | fileTypeError (ct : String)
  deriving DecidableEq, Repr

/-- `RestrictedFileField.clean` (`forms.py` lines 20-36): when
`data.content_type` is absent the `AttributeError` is swallowed and the
value returned unchanged; when present, an allowed type is size-checked
with `data.size > self.max_upload_size` (Python 2 semantics via
`py2GtInt`), and a disallowed type raises the unsupported-type error. -/
def RestrictedFileField.clean (f : RestrictedFileField) (data : UploadedValue) :
    CleanResult :=
  match data.content_type with
  | none => .ok data
  | some ct =>
    if f.content_types.contains ct then
      if py2GtInt data.size f.max_upload_size then .fileSizeError
      else .ok data
    else .fileTypeError ct

/-! ## Helper lemmas -/

/-- A pair drawn from the zip of a list with its own image under `g` has the
image of its first component as its second component. -/
theorem mem_zip_map {α β : Type} (g : α → β) :
    ∀ (l : List α) (p : α × β), p ∈ l.zip (l.map g) → p.2 = g p.1 := by
  intro l
  induction l with
  | nil => intro p hp; simp [List.zip] at hp
  | cons a t ih =>
    intro p hp
    simp only [List.map_cons, List.zip_cons_cons, List.mem_cons] at hp
    rcases hp with h | h
    · simp [h]
    · exact ih p h

/-- When any of the validation checks of `MatrixMerge.put` fails, the
handler stops with a raised error, `perform_dataframe_upload_merge` is not
invoked, and the stored data frame is untouched. -/
theorem mergePut_abort_of_invalid (s : WfState) (r : MergeReq)
    (h : mergeValidationOk s r = false) :
    ∃ e, matrixMergePut s r = ⟨.error e, false, s.stored⟩ := by
  cases h1 : (s.wfFound && (s.superuser || s.owned)) with
  | false => exact ⟨.incorrectObject, by simp [matrixMergePut, h1]⟩
  | true =>
  cases h2 : s.locked with
  | true => exact ⟨.workflowLocked, by simp [matrixMergePut, h1, h2]⟩
  | false =>
  cases h3 : r.serializerValid with
  | false => exact ⟨.serializerErrors, by simp [matrixMergePut, h1, h2, h3]⟩
  | true =>
  cases h4 : r.srcConvertible with
  | false => exact ⟨.unableToLoadMatrix, by simp [matrixMergePut, h1, h2, h3, h4]⟩
  | true =>
  cases h5 : (["left", "right", "outer", "inner"].contains r.how) with
  | false =>
    simp at h5
    exact ⟨.badHow, by simp [matrixMergePut, h1, h2, h3, h4, h5]⟩
  | true =>
  simp at h5
  rcases h5 with h5 | h5 | h5 | h5 <;>
  · cases h6 : s.stored with
    | none => exact ⟨.noneTypeFault, by simp [matrixMergePut, h1, h2, h3, h4, h5, h6]⟩
    | some dst =>
    cases h7 : dst.columns.contains r.left_on with
    | false =>
      simp at h7
      exact ⟨.pyKeyError r.left_on, by simp [matrixMergePut, h1, h2, h3, h4, h5, h6, h7]⟩
    | true =>
    simp at h7
    cases h8 : is_unique_column (dst.getColD r.left_on) with
    | false =>
      exact ⟨.notUniqueDst r.left_on, by simp [matrixMergePut, h1, h2, h3, h4, h5, h6, h7, h8]⟩
    | true =>
    cases h9 : r.src_df.columns.contains r.right_on with
    | false =>
      simp at h9
      exact ⟨.rightNotFound r.right_on,
        by simp [matrixMergePut, h1, h2, h3, h4, h5, h6, h7, h8, h9]⟩
    | true =>
    simp at h9
    cases h10 : is_unique_column (r.src_df.getColD r.right_on) with
    | false =>
      exact ⟨.notUniqueSrc r.right_on,
        by simp [matrixMergePut, h1, h2, h3, h4, h5, h6, h7, h8, h9, h10]⟩
    | true =>
    cases h11 : (["override", "rename"].contains r.dup_column) with
    | false =>
      simp at h11
      exact ⟨.badDupColumn,
        by simp [matrixMergePut, h1, h2, h3, h4, h5, h6, h7, h8, h9, h10, h11]⟩
    | true =>
      simp at h11
      rcases h11 with h11 | h11 <;>
        exact absurd h
          (by simp [mergeValidationOk, h3, h4, h5, h6, h7, h8, h9, h10, h11])

/-- When every validation check of `MatrixMerge.put` passes and the merge
neither raises nor returns a truthy value, the handler persists the merge
result and answers 201 with the echoed request payload. -/
theorem mergePut_success (s : WfState) (r : MergeReq) (dst : Table)
    (hs : s.stored = some dst)
    (hacc : (s.wfFound && (s.superuser || s.owned)) = true)
    (hlock : s.locked = false)
    (hok : mergeValidationOk s r = true)
    (hr1 : r.mergeRaises = false) (hr2 : r.mergeResultTruthy = false) :
    matrixMergePut s r =
      ⟨.ok r.payload, true,
        some (mergeResult dst r.src_df
          (mkMergeInfo dst.columns r.src_df.columns
            r.how r.left_on r.right_on r.dup_column))⟩ := by
  simp only [mergeValidationOk, hs, Bool.and_eq_true] at hok
  obtain ⟨⟨⟨hv, hc⟩, hhow⟩, ⟨⟨⟨⟨hl, hlu⟩, hr⟩, hru⟩, hdup⟩⟩ := hok
  simp at hhow hl hr hdup
  rcases hhow with hh | hh | hh | hh <;> rcases hdup with hd | hd <;>
    simp [matrixMergePut, hacc, hlock, hs, hv, hc, hh, hd, hl, hlu, hr, hru, hr1, hr2]

/-- When every validation check of `MatrixMerge.put` passes but
`perform_dataframe_upload_merge` raises, the handler raises the structured
`Unable to perform merge operation` error and the stored table is
untouched (`api.py` lines 226-232). -/
theorem mergePut_merge_raises (s : WfState) (r : MergeReq) (dst : Table)
    (hs : s.stored = some dst)
    (hacc : (s.wfFound && (s.superuser || s.owned)) = true)
    (hlock : s.locked = false)
    (hok : mergeValidationOk s r = true)
    (hr1 : r.mergeRaises = true) :
    matrixMergePut s r = ⟨.error .mergeFailed, true, s.stored⟩ := by
  simp only [mergeValidationOk, hs, Bool.and_eq_true] at hok
  obtain ⟨⟨⟨hv, hc⟩, hhow⟩, ⟨⟨⟨⟨hl, hlu⟩, hr⟩, hru⟩, hdup⟩⟩ := hok
  simp at hhow hl hr hdup
  rcases hhow with hh | hh | hh | hh <;> rcases hdup with hd | hd <;>
    simp [matrixMergePut, hacc, hlock, hs, hv, hc, hh, hd, hl, hlu, hr, hru, hr1]

/-- When every validation check of `MatrixMerge.put` passes and the merge
function returns a truthy error value, the handler re-raises it as a
structured `APIException` and the stored table is untouched (`api.py`
lines 234-236). -/
theorem mergePut_merge_truthy (s : WfState) (r : MergeReq) (dst : Table)
    (hs : s.stored = some dst)
    (hacc : (s.wfFound && (s.superuser || s.owned)) = true)
    (hlock : s.locked = false)
    (hok : mergeValidationOk s r = true)
    (hr1 : r.mergeRaises = false) (hr2 : r.mergeResultTruthy = true) :
    matrixMergePut s r = ⟨.error .mergeResultTruthy, true, s.stored⟩ := by
  simp only [mergeValidationOk, hs, Bool.and_eq_true] at hok
  obtain ⟨⟨⟨hv, hc⟩, hhow⟩, ⟨⟨⟨⟨hl, hlu⟩, hr⟩, hru⟩, hdup⟩⟩ := hok
  simp at hhow hl hr hdup
  rcases hhow with hh | hh | hh | hh <;> rcases hdup with hd | hd <;>
    simp [matrixMergePut, hacc, hlock, hs, hv, hc, hh, hd, hl, hlu, hr, hru, hr1, hr2]

/-- The override drop list is, as a set, the intersection of the column
name sets minus the destination key. -/
theorem overrideColumns_toFinset (d s : List ColName) (k : ColName) :
    (overrideColumns d s k).toFinset = (d.toFinset ∩ s.toFinset) \ {k} := by
  ext c
  simp [overrideColumns, List.mem_filter, and_assoc]
  tauto

/-! ## Claim theorems -/

/-- C1: the rename policy is claimed to choose, for every colliding source
column, the smallest suffix avoiding both the destination columns and the
names already assigned earlier in the pass.  The code checks only the
destination columns: on destination `[k, a]` and source `[k, a_1, a]` with
key `k` it assigns the final name `a_1` twice (once as the untouched column
`a_1`, once as the rename of `a`), where the claimed policy (modelled in
`autorenameSpec`) assigns `a_2` to the rename of `a`; the code's output is
not even duplicate-free. -/
theorem C1_rename_ignores_assigned_names :
    autorename ["k", "a"] ["k", "a_1", "a"] "k" = ["k", "a_1", "a_1"] ∧
    autorenameSpec ["k", "a"] ["k", "a_1", "a"] "k" = ["k", "a_1", "a_2"] ∧
    ¬ (autorename ["k", "a"] ["k", "a_1", "a"] "k").Nodup := by
  decide

/-- C2: the claim says a `left_on` absent from the destination columns is
rejected with a key-not-found validation error identifying the destination
side, before the uniqueness check.  The code has no such check:
`dst_df[left_on]` at `api.py` line 167 raises an uncaught Python
`KeyError` (modelled as the distinguished outcome `pyKeyError`), not a
structured validation error naming the destination side. -/
theorem C2_left_on_membership_unchecked :
    (matrixMergePut ⟨true, true, false, false, some ⟨[("id", [some 1])]⟩⟩
        ⟨true, true, ⟨[("k", [some 1])]⟩, "inner", "nope", "k", "rename",
          false, false⟩).result
      = .error (.pyKeyError "nope") := by
  decide

/-- C3 counterexample: a fully valid merge request (every check of
`mergeValidationOk` passes) with `left_on = id ≠ right_on = rid` and `rid`
a column of both tables puts the join key `rid` into the override drop
set, refuting the claim that `left_on`/`right_on` are never in it. -/
theorem C3_counterexample :
    mergeValidationOk
        ⟨true, true, false, false,
          some ⟨[("id", [some 1, some 2]), ("rid", [some 3, some 4]),
                 ("name", [some 5, some 6])]⟩⟩
        ⟨true, true, ⟨[("rid", [some 3]), ("name", [some 7])]⟩,
          "inner", "id", "rid", "override", false, false⟩ = true ∧
    "rid" ∈ (mkMergeInfo ["id", "rid", "name"] ["rid", "name"]
        "inner" "id" "rid" "override").override_columns_names ∧
    "rid" ≠ "id" := by
  decide

/-- C3 (amended): the reconciliation plan never renames the join key and
never drops `left_on`: `right_on` maps to itself in the rename list, and
`left_on` is absent from the override drop set.  (`right_on` CAN appear in
the drop set when `left_on ≠ right_on` and `right_on` is a column of both
tables — see the counterexample.) -/
theorem C3_key_never_renamed_left_never_dropped
    (dstCols srcCols : List ColName) (how left_on right_on : String) :
    left_on ∉ (mkMergeInfo dstCols srcCols how left_on right_on
        "override").override_columns_names ∧
    ∀ p ∈ srcCols.zip (autorename dstCols srcCols right_on),
      p.1 = right_on → p.2 = right_on := by
  constructor
  · simp [mkMergeInfo, overrideColumns, List.mem_filter]
  · intro p hp hkey
    have h2 := mem_zip_map (renameColumn dstCols right_on) srcCols p hp
    rw [h2, hkey]
    simp [renameColumn]

/-- C3 witness: the amended key-preservation statement at a concrete
destination/source pair. -/
theorem C3_key_never_renamed_left_never_dropped_w :
    "id" ∉ (mkMergeInfo ["id", "a"] ["id", "a"] "inner" "id" "id"
        "override").override_columns_names :=
  (C3_key_never_renamed_left_never_dropped ["id", "a"] ["id", "a"]
    "inner" "id" "id").1

/-- C4: under the override policy the drop set is exactly
(destination columns ∩ source columns) − {left_on}, no rename plan is
produced (`autorename_column_names` stays `None`), and on the spec's own
example — destination `{id, name, age}`, source `{id, name}`, key `id` —
the drop set is `{name}`. -/
theorem C4_override_drop_set
    (dstCols srcCols : List ColName) (how left_on right_on : String) :
    ((mkMergeInfo dstCols srcCols how left_on right_on
        "override").override_columns_names).toFinset
      = (dstCols.toFinset ∩ srcCols.toFinset) \ {left_on} ∧
    (mkMergeInfo dstCols srcCols how left_on right_on
        "override").autorename_column_names = none ∧
    (mkMergeInfo ["id", "name", "age"] ["id", "name"] "inner" "id" "id"
        "override").override_columns_names = ["name"] := by
  refine ⟨?_, rfl, by decide⟩
  simpa [mkMergeInfo] using overrideColumns_toFinset dstCols srcCols left_on

/-- C4 witness: the drop-set equation evaluated on the spec's example. -/
theorem C4_override_drop_set_w :
    ((mkMergeInfo ["id", "name", "age"] ["id", "name"] "inner" "id" "id"
        "override").override_columns_names).toFinset
      = ((["id", "name", "age"] : List ColName).toFinset
          ∩ (["id", "name"] : List ColName).toFinset) \ {"id"} :=
  (C4_override_drop_set ["id", "name", "age"] ["id", "name"]
    "inner" "id" "id").1

/-- C5 counterexample: a successful merge of source `{id: [1]}` into
destination `{id: [1], y: [9]}` (inner join on `id`, rename policy)
answers 201 with the echoed request payload — whose table is the source
`{id: [1]}` — while the persisted merge result is `{id: [1], y: [9]}`;
the response therefore does not carry the merged table the claim
promises. -/
theorem C5_counterexample :
    (matrixMergePut
        ⟨true, true, false, false, some ⟨[("id", [some 1]), ("y", [some 9])]⟩⟩
        ⟨true, true, ⟨[("id", [some 1])]⟩, "inner", "id", "id", "rename",
          false, false⟩).result
      = .ok ⟨⟨[("id", [some 1])]⟩, "inner", "id", "id", "rename"⟩ ∧
    (matrixMergePut
        ⟨true, true, false, false, some ⟨[("id", [some 1]), ("y", [some 9])]⟩⟩
        ⟨true, true, ⟨[("id", [some 1])]⟩, "inner", "id", "id", "rename",
          false, false⟩).stored
      = some ⟨[("id", [some 1]), ("y", [some 9])]⟩ ∧
    (⟨[("id", [some 1])]⟩ : Table) ≠ ⟨[("id", [some 1]), ("y", [some 9])]⟩ := by
  decide

/-- C5 (amended): a merge request that validates and executes successfully
persists the (spec-modelled) join result and answers 201 with the
caller's validated request data — an echo of the input, not the merged
table.  When the merge step itself fails — `perform_dataframe_upload_merge`
raises, or returns a truthy error value (`api.py` lines 226-236) — the
handler raises a structured error instead and the stored table is
untouched.  The three conjuncts cover every validation-passing request,
since they are exhaustive over the two failure flags of the merge step. -/
theorem C5_merge_persists_result_and_echoes_request
    (s : WfState) (r : MergeReq) (dst : Table)
    (hs : s.stored = some dst)
    (hacc : (s.wfFound && (s.superuser || s.owned)) = true)
    (hlock : s.locked = false)
    (hok : mergeValidationOk s r = true) :
    (r.mergeRaises = false → r.mergeResultTruthy = false →
      matrixMergePut s r =
        ⟨.ok r.payload, true,
          some (mergeResult dst r.src_df
            (mkMergeInfo dst.columns r.src_df.columns
              r.how r.left_on r.right_on r.dup_column))⟩) ∧
    (r.mergeRaises = true →
      matrixMergePut s r = ⟨.error .mergeFailed, true, s.stored⟩) ∧
    (r.mergeRaises = false → r.mergeResultTruthy = true →
      matrixMergePut s r = ⟨.error .mergeResultTruthy, true, s.stored⟩) ∧
    ApiError.mergeFailed.structured = true ∧
    ApiError.mergeResultTruthy.structured = true :=
  ⟨fun h1 h2 => mergePut_success s r dst hs hacc hlock hok h1 h2,
   fun h1 => mergePut_merge_raises s r dst hs hacc hlock hok h1,
   fun h1 h2 => mergePut_merge_truthy s r dst hs hacc hlock hok h1 h2,
   rfl, rfl⟩

/-- C5 witness: the amended statement evaluated on the concrete merge of
the counterexample (success case) and on the same request with a raising
merge step (failure case). -/
theorem C5_merge_persists_result_and_echoes_request_w :
    matrixMergePut
        ⟨true, true, false, false, some ⟨[("id", [some 1]), ("y", [some 9])]⟩⟩
        ⟨true, true, ⟨[("id", [some 1])]⟩, "inner", "id", "id", "rename",
          false, false⟩
      = ⟨.ok ⟨⟨[("id", [some 1])]⟩, "inner", "id", "id", "rename"⟩, true,
          some (mergeResult ⟨[("id", [some 1]), ("y", [some 9])]⟩
            ⟨[("id", [some 1])]⟩
            (mkMergeInfo ["id", "y"] ["id"] "inner" "id" "id" "rename"))⟩ ∧
    matrixMergePut
        ⟨true, true, false, false, some ⟨[("id", [some 1]), ("y", [some 9])]⟩⟩
        ⟨true, true, ⟨[("id", [some 1])]⟩, "inner", "id", "id", "rename",
          true, false⟩
      = ⟨.error .mergeFailed, true, some ⟨[("id", [some 1]), ("y", [some 9])]⟩⟩ :=
  ⟨(C5_merge_persists_result_and_echoes_request
      ⟨true, true, false, false, some ⟨[("id", [some 1]), ("y", [some 9])]⟩⟩
      ⟨true, true, ⟨[("id", [some 1])]⟩, "inner", "id", "id", "rename",
        false, false⟩
      ⟨[("id", [some 1]), ("y", [some 9])]⟩ rfl rfl rfl (by decide)).1
    rfl rfl,
   ((C5_merge_persists_result_and_echoes_request
      ⟨true, true, false, false, some ⟨[("id", [some 1]), ("y", [some 9])]⟩⟩
      ⟨true, true, ⟨[("id", [some 1])]⟩, "inner", "id", "id", "rename",
        true, false⟩
      ⟨[("id", [some 1]), ("y", [some 9])]⟩ rfl rfl rfl (by decide)).2).1
    rfl⟩

/-- C6: on a workflow that already stores a table, POST is rejected with
the requires-no-matrix error and leaves the table unchanged, while PUT on
the same state succeeds and overwrites the stored table with the upload. -/
theorem C6_post_rejects_existing_put_replaces
    (s : WfState) (r : UploadReq) (t : Table)
    (hs : s.stored = some t)
    (hacc : (s.wfFound && (s.superuser || s.owned)) = true)
    (hlock : s.locked = false)
    (hv : r.serializerValid = true) (hc : r.convertible = true) :
    matrixOpsPost s r = ⟨.error .postRequiresNoMatrix, some t⟩ ∧
    matrixOpsPut s r = ⟨.ok (), some r.table⟩ := by
  constructor
  · simp [matrixOpsPost, hs]
  · simp [matrixOpsPut, matrixOpsOverride, get_object, hacc, hlock, hv, hc]

/-- C6 witness: POST rejected while PUT overwrites, on a concrete owned,
unlocked workflow holding a one-column table. -/
theorem C6_post_rejects_existing_put_replaces_w :
    matrixOpsPost ⟨true, true, false, false, some ⟨[("a", [some 1])]⟩⟩
        ⟨true, true, ⟨[("b", [some 2])]⟩⟩
      = ⟨.error .postRequiresNoMatrix, some ⟨[("a", [some 1])]⟩⟩ ∧
    matrixOpsPut ⟨true, true, false, false, some ⟨[("a", [some 1])]⟩⟩
        ⟨true, true, ⟨[("b", [some 2])]⟩⟩
      = ⟨.ok (), some ⟨[("b", [some 2])]⟩⟩ :=
  C6_post_rejects_existing_put_replaces _ _ _ rfl rfl rfl rfl rfl

/-- C7: a merge request that fails any validation check (serializer
verdict, source translation, join type, stored matrix present, key
presence/uniqueness on either side, dup policy) raises an error before
`perform_dataframe_upload_merge` is ever invoked, leaving the stored
destination table unchanged. -/
theorem C7_failed_validation_never_touches_table (s : WfState) (r : MergeReq)
    (h : mergeValidationOk s r = false) :
    ∃ e, matrixMergePut s r = ⟨.error e, false, s.stored⟩ :=
  mergePut_abort_of_invalid s r h

/-- C7 witness: a request with the invalid join type `bogus` aborts with
an error, no merge invocation, and the stored table intact. -/
theorem C7_failed_validation_never_touches_table_w :
    ∃ e, matrixMergePut ⟨true, true, false, false, some ⟨[("id", [some 1])]⟩⟩
        ⟨true, true, ⟨[("id", [some 1])]⟩, "bogus", "id", "id", "rename",
          false, false⟩
      = ⟨.error e, false, some ⟨[("id", [some 1])]⟩⟩ :=
  C7_failed_validation_never_touches_table _ _ (by decide)

/-- C8: on a locked workflow (that the caller could otherwise access),
matrix GET/PUT/DELETE and both merge endpoints are rejected with the
locked-workflow error, the stored table is untouched, and the merge engine
is never invoked. -/
theorem C8_locked_workflow_rejects_every_endpoint
    (s : WfState) (r : UploadReq) (m : MergeReq)
    (hacc : (s.wfFound && (s.superuser || s.owned)) = true)
    (hlock : s.locked = true) :
    matrixOpsGet s = .error .workflowLocked ∧
    matrixOpsPut s r = ⟨.error .workflowLocked, s.stored⟩ ∧
    matrixOpsDelete s = ⟨.error .workflowLocked, s.stored⟩ ∧
    matrixMergeGet s = .error .workflowLocked ∧
    matrixMergePut s m = ⟨.error .workflowLocked, false, s.stored⟩ := by
  refine ⟨?_, ?_, ?_, ?_, ?_⟩ <;>
    simp [matrixOpsGet, matrixOpsPut, matrixOpsOverride, matrixOpsDelete,
      matrixMergeGet, matrixMergePut, get_object, hacc, hlock]

/-- C8 witness: every endpoint rejected on a concrete owned but locked
workflow. -/
theorem C8_locked_workflow_rejects_every_endpoint_w :
    matrixOpsGet ⟨true, true, false, true, some ⟨[("a", [some 1])]⟩⟩
      = .error .workflowLocked ∧
    matrixOpsPut ⟨true, true, false, true, some ⟨[("a", [some 1])]⟩⟩
        ⟨true, true, ⟨[]⟩⟩
      = ⟨.error .workflowLocked, some ⟨[("a", [some 1])]⟩⟩ ∧
    matrixOpsDelete ⟨true, true, false, true, some ⟨[("a", [some 1])]⟩⟩
      = ⟨.error .workflowLocked, some ⟨[("a", [some 1])]⟩⟩ ∧
    matrixMergeGet ⟨true, true, false, true, some ⟨[("a", [some 1])]⟩⟩
      = .error .workflowLocked ∧
    matrixMergePut ⟨true, true, false, true, some ⟨[("a", [some 1])]⟩⟩
        ⟨true, true, ⟨[]⟩, "inner", "a", "a", "rename", false, false⟩
      = ⟨.error .workflowLocked, false, some ⟨[("a", [some 1])]⟩⟩ :=
  C8_locked_workflow_rejects_every_endpoint _ _ _ rfl rfl

/-- C9: `MatrixOps.post` consults `load_from_db` before any permission
check, so on a workflow that already stores a table the caller receives
the requires-no-matrix rejection for EVERY lock/ownership configuration —
in particular also when the workflow is locked or not owned. -/
theorem C9_post_loads_matrix_before_permissions
    (s : WfState) (r : UploadReq) (t : Table)
    (hs : s.stored = some t) :
    matrixOpsPost s r = ⟨.error .postRequiresNoMatrix, some t⟩ := by
  simp [matrixOpsPost, hs]

/-- C9 witness: a locked, unowned workflow with a stored table still gets
the requires-no-matrix rejection from POST. -/
theorem C9_post_loads_matrix_before_permissions_w :
    matrixOpsPost ⟨true, false, false, true, some ⟨[("a", [some 1])]⟩⟩
        ⟨true, true, ⟨[]⟩⟩
      = ⟨.error .postRequiresNoMatrix, some ⟨[("a", [some 1])]⟩⟩ :=
  C9_post_loads_matrix_before_permissions _ _ _ rfl

/-- C10: `RestrictedFileField.clean` at the failing input.  With the
default configuration `max_upload_size` is the STRING of the preference
(`forms.py` line 17), and Python 2 evaluates `int > str` to `False`, so an
allowed-type file of 1 GB is returned without any error although it
numerically exceeds the 2.5 MB maximum — the size branch of the claim is
dead under the default.  With an explicitly numeric maximum the same file
is rejected; the no-content-type and disallowed-type parts of the claim
behave as stated. -/
theorem C10_size_check_dead_under_default :
    RestrictedFileField.clean ⟨["text/csv"], .pyStr "2621440"⟩
        ⟨some "text/csv", 1000000000⟩
      = .ok ⟨some "text/csv", 1000000000⟩ ∧
    RestrictedFileField.clean ⟨["text/csv"], .pyInt 2621440⟩
        ⟨some "text/csv", 1000000000⟩
      = .fileSizeError ∧
    RestrictedFileField.clean ⟨["text/csv"], .pyStr "2621440"⟩
        ⟨none, 1000000000⟩
      = .ok ⟨none, 1000000000⟩ ∧
    RestrictedFileField.clean ⟨["text/csv"], .pyStr "2621440"⟩
        ⟨some "application/pdf", 5⟩
      = .fileTypeError "application/pdf" ∧
    2621440 < 1000000000 := by
  decide

end Ontask
